import Mathlib

/-
Verification of the real-time event-streaming client of the Vectorless_RAG
frontend (TypeScript/React), against its natural-language specification.

Shallow embedding notes:
- React useState state is modelled as a record (ChatState); a functional
  update setX(prev => f prev) reads the live record, while a plain variable
  read inside a registered handler reads the value captured when the
  handler-registering effect last ran (modelled by the closureAnswer field
  of ChatRuntime, refreshed by an explicit rerender event).
- Wall-clock data (message ids from Date.now(), timestamps) and logging
  calls (console.error) are omitted: no claim mentions them.
- The JS number `cost` is carried opaquely as a Nat: it is only ever passed
  through unchanged, never computed with.
-/

/-! ### Chat interface: data model (src/unnamed/part_000, chat-interface) -/

/-- Citation record of QueryAnswerEvent (src/frontend/lib/websocket.ts).
The wire field named section is called sectionTitle here because section is
a Lean keyword. -/
structure Citation where
  node_id : String
  sectionTitle : String
  start_page : Nat
  end_page : Nat
  deriving DecidableEq, Repr

/-- Payload of a query:answer_complete event as read by handleAnswerComplete
(fields cost, tokens_used, cached, citations). -/
structure AnswerCompleteData where
  cost : Nat
  tokens_used : Nat
  cached : Bool
  citations : List Citation
  deriving DecidableEq, Repr

/-- Message record of the chat interface (interface Message in
src/unnamed/part_000); id and timestamp omitted (wall-clock). -/
structure ChatMessage where
  role : String
  content : String
  cost : Option Nat
  tokens : Option Nat
  cached : Option Bool
  citations : Option (List Citation)
  deriving DecidableEq, Repr

/-- The useState hooks of ChatInterface that the streaming handlers touch
(messages, isLoading, currentQuestionId, streamedThinking, streamedNodes,
streamedAnswer, isStreamingAnswer). -/
structure ChatState where
  messages : List ChatMessage
  isLoading : Bool
  currentQuestionId : Option String
  streamedThinking : String
  streamedNodes : List String
  streamedAnswer : String
  isStreamingAnswer : Bool
  deriving DecidableEq, Repr

/-- Runtime pairing the live React state with the streamedAnswer value
captured by the currently registered handleAnswerComplete closure (the
useEffect re-registers handlers with deps [on, off, streamedAnswer], so the
captured value refreshes only when a render commits). -/
structure ChatRuntime where
  state : ChatState
  closureAnswer : String
  deriving DecidableEq, Repr

/-- Events delivered to the chat interface handlers, plus an explicit
rerender step standing for a committed React render that re-runs the
handler-registering effect. -/
inductive ChatEvent where
  | queryStarted
  | thinkingStream (chunk : String)
  | nodes (node_list : List String)
  | answerStream (chunk : String)
  | answerComplete (data : AnswerCompleteData)
  | rerender
  deriving DecidableEq, Repr

/-- handleThinkingStream (part_000 lines 86-88):
setStreamedThinking(prev => prev + data.chunk). -/
def handleThinkingStream (s : ChatState) (chunk : String) : ChatState :=
  { s with streamedThinking := s.streamedThinking ++ chunk }

/-- handleNodes (part_000 lines 90-92): setStreamedNodes(data.node_list). -/
def handleNodes (s : ChatState) (node_list : List String) : ChatState :=
  { s with streamedNodes := node_list }

/-- handleAnswerStream (part_000 lines 94-97): setIsStreamingAnswer(true);
setStreamedAnswer(prev => prev + data.chunk). -/
def handleAnswerStream (s : ChatState) (chunk : String) : ChatState :=
  { s with isStreamingAnswer := true, streamedAnswer := s.streamedAnswer ++ chunk }

/-- handleAnswerComplete (part_000 lines 99-128). The content of the new
assistant message is the closure-captured streamedAnswer value (the plain
read of streamedAnswer on line 105), passed here as captured; all writes go
through setters. Toast side effects omitted. -/
def handleAnswerComplete (s : ChatState) (captured : String)
    (data : AnswerCompleteData) : ChatState :=
  { s with
    isStreamingAnswer := false
    messages := s.messages ++
      [{ role := "assistant", content := captured, cost := some data.cost,
         tokens := some data.tokens_used, cached := some data.cached,
         citations := some data.citations }]
    isLoading := false
    currentQuestionId := none
    streamedThinking := ""
    streamedNodes := []
    streamedAnswer := "" }

/-- handleQueryStarted (part_000 lines 147-152): reset the three streaming
accumulators. -/
def handleQueryStarted (s : ChatState) : ChatState :=
  { s with streamedThinking := "", streamedNodes := [], streamedAnswer := "" }

/-- One delivered event. Handlers never inspect a questionId or phase: each
event is processed by the registered handler unconditionally. A rerender
refreshes the closure-captured streamedAnswer to the live value. -/
def chatStep (r : ChatRuntime) : ChatEvent → ChatRuntime
  | .queryStarted => { r with state := handleQueryStarted r.state }
  | .thinkingStream c => { r with state := handleThinkingStream r.state c }
  | .nodes nl => { r with state := handleNodes r.state nl }
  | .answerStream c => { r with state := handleAnswerStream r.state c }
  | .answerComplete d =>
      { r with state := handleAnswerComplete r.state r.closureAnswer d }
  | .rerender => { r with closureAnswer := r.state.streamedAnswer }

/-- Deliver a list of events in order. -/
def chatRun (r : ChatRuntime) (es : List ChatEvent) : ChatRuntime :=
  es.foldl chatStep r

/-- Initial chat runtime: empty accumulators, no messages, handlers freshly
registered (closure captures the empty streamedAnswer). -/
def chatInit : ChatRuntime :=
  { state :=
      { messages := [], isLoading := false, currentQuestionId := none,
        streamedThinking := "", streamedNodes := [], streamedAnswer := "",
        isStreamingAnswer := false },
    closureAnswer := "" }

/-! ### WebSocketManager (src/frontend/lib/websocket.ts) -/

/-- Field maxReconnectAttempts of WebSocketManager (line 82). -/
def maxReconnectAttempts : Nat := 5

/-- Field reconnectDelay of WebSocketManager (line 83), milliseconds. -/
def reconnectDelay : Nat := 1000

/-- Options passed to io(wsUrl, ...) in WebSocketManager.connect
(lines 98-105); url and transports omitted (environment strings). -/
structure IoOptions where
  reconnection : Bool
  reconnectionAttempts : Nat
  reconnectionDelay : Nat
  deriving DecidableEq, Repr

/-- The option record built by connect: reconnection true, attempts capped
at maxReconnectAttempts, delay reconnectDelay. The reconnectionAttempts
option is what makes the underlying transport stop automatic retries after
that many failed attempts. -/
def connectIoOptions : IoOptions :=
  { reconnection := true,
    reconnectionAttempts := maxReconnectAttempts,
    reconnectionDelay := reconnectDelay }

/-- Local connection-status payloads emitted by the manager. -/
inductive ConnStatus where
  | connected
  | disconnected
  | error
  deriving DecidableEq, Repr

/-- Payload of a connection-status event ({status, message}). -/
structure ConnStatusEvent where
  status : ConnStatus
  message : String
  deriving DecidableEq, Repr

/-- Mutable counters of WebSocketManager relevant to reconnection. -/
structure WSManagerState where
  reconnectAttempts : Nat
  isConnecting : Bool
  deriving DecidableEq, Repr

/-- The connect_error handler (websocket.ts lines 135-146): set
isConnecting false, increment reconnectAttempts, and if the counter has
reached maxReconnectAttempts publish a terminal connection-status error
event to local listeners. Returns the new state and the list of
connection-status events published by this invocation. -/
def onConnectError (s : WSManagerState) : WSManagerState × List ConnStatusEvent :=
  let s1 : WSManagerState :=
    { isConnecting := false, reconnectAttempts := s.reconnectAttempts + 1 }
  if s1.reconnectAttempts ≥ maxReconnectAttempts then
    (s1, [{ status := .error,
            message := "Failed to connect to server after multiple attempts" }])
  else
    (s1, [])

/-- The connect handler (websocket.ts lines 114-121): reset the attempt
counter and publish a connected status. -/
def onConnectSuccess (_s : WSManagerState) : WSManagerState × List ConnStatusEvent :=
  ({ isConnecting := false, reconnectAttempts := 0 },
   [{ status := .connected, message := "Connected to server" }])

/-- Deliver n consecutive connect_error events (a run of failed connection
attempts with no intervening success), collecting every connection-status
event published along the way. -/
def runFailures : Nat → WSManagerState → WSManagerState × List ConnStatusEvent
  | 0, s => (s, [])
  | n + 1, s =>
    let p1 := onConnectError s
    let p2 := runFailures n p1.1
    (p2.1, p1.2 ++ p2.2)

/-- State of a freshly constructed (or freshly reset-by-success) manager:
attempt counter 0. isConnecting true as set by connect(). -/
def freshAttemptState : WSManagerState :=
  { reconnectAttempts := 0, isConnecting := true }

/-! ### Event dispatcher: WebSocketManager.emit (websocket.ts lines 269-277) -/

/-- Payloads handed to local handlers; kept abstract as strings. -/
abbrev Payload : Type := String

/-- A registered local handler: an identity (Set membership is by function
identity in the source) together with its behaviour, which may finish
normally or throw (Except.error carries the thrown message). -/
structure Handler where
  id : Nat
  run : Payload → Except String Unit

/-- Outcome recorded for one handler invocation: either it returned, or it
threw and the exception was caught (and logged) by the per-handler
try/catch inside emit. -/
inductive InvokeOutcome where
  | ok
  | caught (msg : String)
  deriving DecidableEq, Repr

/-- WebSocketManager.emit over the handler set for one event: iterate the
handlers in order; each call is wrapped in try/catch, so a throw is caught
(recorded as a log entry) and iteration continues with the next handler.
Returns the per-handler invocation log in order. -/
def emitHandlers : List Handler → Payload → List (Nat × InvokeOutcome)
  | [], _ => []
  | h :: rest, p =>
    let entry :=
      match h.run p with
      | .ok _ => (h.id, InvokeOutcome.ok)
      | .error e => (h.id, InvokeOutcome.caught e)
    entry :: emitHandlers rest p

/-! ### WebSocketManager.sendQuery (websocket.ts lines 219-230) -/

/-- QueryRequest (websocket.ts lines 7-13). -/
structure QueryRequest where
  question : String
  document_id : Nat
  conversation_id : Nat
  use_cache : Bool
  include_citations : Bool
  deriving DecidableEq, Repr

/-- Frames written to the socket by the manager. -/
inductive SentFrame where
  | query (req : QueryRequest)
  deriving DecidableEq, Repr

/-- Events the manager publishes to local listeners from sendQuery. -/
structure QueryErrorPayload where
  message : String
  conversation_id : Nat
  deriving DecidableEq, Repr

/-- The socket field: none when no socket object exists, otherwise the
connected flag; this.socket?.connected is true only for some true. -/
def socketConnected : Option Bool → Bool
  | some b => b
  | none => false

/-- sendQuery: if the socket is absent or not connected, send nothing and
publish a query:error event locally with the fixed message and the
conversation_id of the request, then return; otherwise emit one query frame
on the socket. Total function: never throws. -/
def sendQuery (socket : Option Bool) (req : QueryRequest) :
    List SentFrame × List QueryErrorPayload :=
  if socketConnected socket = false then
    ([], [{ message := "Not connected to server. Please try again.",
            conversation_id := req.conversation_id }])
  else
    ([SentFrame.query req], [])

/-! ### Documents panel job tracking
(src/frontend/components/documents/documents-panel.tsx) -/

/-- Document record tracked by DocumentsPanel (interface Document, lines
42-51); size and uploadDate omitted (display only, untouched by the event
handlers). Optional numeric fields are Option Nat. -/
structure PanelDoc where
  id : Nat
  name : String
  status : String
  pageCount : Option Nat
  treeGenerated : Bool
  progress : Option Nat
  deriving DecidableEq, Repr

/-- DocumentUpdateEvent (src/frontend/hooks/use-document-updates.ts lines
11-17): doc_id, status, optional message, num_pages, progress. -/
structure DocUpdateEvent where
  doc_id : Nat
  status : String
  message : Option String
  num_pages : Option Nat
  progress : Option Nat
  deriving DecidableEq, Repr

/-- TreeGenerationEvent (use-document-updates.ts lines 19-27). -/
structure TreeGenEvent where
  doc_id : Nat
  tree_id : Option Nat
  status : String
  message : Option String
  progress : Option Nat
  num_nodes : Option Nat
  num_pages : Option Nat
  deriving DecidableEq, Repr

/-- JS a || b on an optional number: undefined and 0 are falsy, so the
result is b unless a is present and nonzero. -/
def jsOrNum (a b : Option Nat) : Option Nat :=
  match a with
  | some n => if n = 0 then b else some n
  | none => b

/-- Body of the map inside the onDocumentUpdate callback
(documents-panel.tsx lines 77-88): the document whose id matches
event.doc_id gets status replaced by event.status, pageCount replaced by
event.num_pages || doc.pageCount, and progress replaced by event.progress
(whether present or not); every other document is untouched. -/
def applyDocUpdate (ev : DocUpdateEvent) (doc : PanelDoc) : PanelDoc :=
  if doc.id = ev.doc_id then
    { doc with
      status := ev.status
      pageCount := jsOrNum ev.num_pages doc.pageCount
      progress := ev.progress }
  else doc

/-- The onDocumentUpdate callback (documents-panel.tsx lines 76-93):
setDocuments maps applyDocUpdate over the list. Toast side effect on error
status omitted. -/
def onDocumentUpdate (ev : DocUpdateEvent) (docs : List PanelDoc) : List PanelDoc :=
  docs.map (applyDocUpdate ev)

/-- Body of the map inside the onTreeGeneration callback
(documents-panel.tsx lines 98-109): the matching document gets progress
replaced by event.progress, status set to indexed exactly when the event
status is completed (otherwise kept), and treeGenerated set to whether the
event status is completed. -/
def applyTreeUpdate (ev : TreeGenEvent) (doc : PanelDoc) : PanelDoc :=
  if doc.id = ev.doc_id then
    { doc with
      progress := ev.progress
      status := if ev.status = "completed" then "indexed" else doc.status
      treeGenerated := ev.status = "completed" }
  else doc

/-- The setDocuments update inside the onTreeGeneration callback
(documents-panel.tsx lines 98-109). Toasts and the generatingTreeFor set
omitted. -/
def onTreeGenerationDocs (ev : TreeGenEvent) (docs : List PanelDoc) : List PanelDoc :=
  docs.map (applyTreeUpdate ev)

/-! ### Chat query:error handler as a statement sequence
(src/unnamed/part_000 lines 130-145)

The handler body is a sequence of calls through bare identifiers. One of
them, setThinkingProcess, is bound nowhere in the component, so in
JavaScript the call raises a ReferenceError at that statement and the rest
of the body never runs. The interpreter below executes statements in order,
resolving each called identifier against the list of identifiers actually
bound in the component, and aborts with the offending name on the first
unbound one. -/

/-- One statement of a handler body: a call through a named identifier
whose effect on the component state (when the name is bound) is upd, or a
toast.error call (toast is an imported, hence bound, identifier). -/
inductive ChatStmt where
  | call (name : String) (upd : ChatState → ChatState)
  | toastError (text : String)

/-- Result of running a handler body: final state, toasts shown, and the
identifier whose resolution raised a ReferenceError, if any. -/
structure StmtOutcome where
  state : ChatState
  toasts : List String
  refError : Option String
  deriving DecidableEq, Repr

/-- Execute statements in order; a call through a name not in bound raises
a ReferenceError naming it and aborts the remainder of the body. -/
def runStmts (bound : List String) :
    List ChatStmt → ChatState → List String → StmtOutcome
  | [], s, ts => { state := s, toasts := ts, refError := none }
  | ChatStmt.call n upd :: rest, s, ts =>
    if n ∈ bound then runStmts bound rest (upd s) ts
    else { state := s, toasts := ts, refError := some n }
  | ChatStmt.toastError m :: rest, s, ts =>
    runStmts bound rest s (ts ++ [m])

/-- Identifiers bound in the ChatInterface component that handler bodies
call through: exactly the useState setters declared on part_000 lines
44-62. setThinkingProcess is not among them. -/
def boundSetters : List String :=
  ["setMessages", "setInput", "setIsLoading", "setDocuments",
   "setSelectedDocId", "setLoadingDocs", "setConversationId",
   "setCurrentQuestionId", "setStreamedThinking", "setStreamedNodes",
   "setStreamedAnswer", "setIsStreamingAnswer"]

/-- The system message appended by handleQueryError (lines 133-138);
id and timestamp omitted as elsewhere. -/
def mkQueryErrorMessage (msg : String) : ChatMessage :=
  { role := "system", content := "Error: " ++ msg,
    cost := none, tokens := none, cached := none, citations := none }

/-- Body of handleQueryError (part_000 lines 130-145), statement by
statement after the console.error log: append the error system message,
clear the loading flag, clear the current question id, call
setThinkingProcess(null), then toast.error the failure text. -/
def handleQueryErrorStmts (msg : String) : List ChatStmt :=
  [ChatStmt.call "setMessages"
     (fun s => { s with messages := s.messages ++ [mkQueryErrorMessage msg] }),
   ChatStmt.call "setIsLoading" (fun s => { s with isLoading := false }),
   ChatStmt.call "setCurrentQuestionId"
     (fun s => { s with currentQuestionId := none }),
   ChatStmt.call "setThinkingProcess" (fun s => s),
   ChatStmt.toastError ("Query failed: " ++ msg)]

/-! ### Theorems -/

theorem chatRun_cons (r : ChatRuntime) (e : ChatEvent) (es : List ChatEvent) :
    chatRun r (e :: es) = chatRun (chatStep r e) es := rfl

theorem chatRun_thinking_foldl (cs : List String) (r : ChatRuntime) :
    (chatRun r (cs.map ChatEvent.thinkingStream)).state.streamedThinking
      = cs.foldl (fun a c => a ++ c) r.state.streamedThinking := by
  induction cs generalizing r with
  | nil => rfl
  | cons c cs ih =>
    simp only [List.map_cons, chatRun_cons, List.foldl_cons]
    exact ih _

/-- C7: for every sequence of query:thinking_stream events with chunks
c1..cn delivered after query:started, the accumulated streamedThinking
equals the concatenation c1 ++ ... ++ cn in arrival order
(handleThinkingStream appends each chunk through a functional update). -/
theorem c7_thinking_concatenation (r : ChatRuntime) (cs : List String) :
    (chatRun r (ChatEvent.queryStarted :: cs.map ChatEvent.thinkingStream)).state.streamedThinking
      = String.join cs := by
  rw [chatRun_cons, chatRun_thinking_foldl]
  rfl

/-- C8: query:nodes events are last-write-wins: after any sequence of
nodes events ending with node list ls, the accumulated streamedNodes
equals exactly ls (handleNodes replaces the list wholesale, never
appends). -/
theorem c8_nodes_last_write_wins (lss : List (List String))
    (ls : List String) (r : ChatRuntime) :
    (chatRun r ((lss ++ [ls]).map ChatEvent.nodes)).state.streamedNodes
      = ls := by
  induction lss generalizing r with
  | nil => rfl
  | cons x xs ih =>
    simp only [List.cons_append, List.map_cons, chatRun_cons]
    exact ih _

/-- Answer-complete payload used by the concrete streaming runs below. -/
def sampleAnswerData : AnswerCompleteData :=
  { cost := 1, tokens_used := 120, cached := false, citations := [] }

/-- Event run for the stale-closure scenario: two answer chunks, a render
commit between them, and completion delivered immediately after the last
chunk (no intervening re-render). -/
def staleClosureEvents : List ChatEvent :=
  [ChatEvent.queryStarted, ChatEvent.answerStream "The ",
   ChatEvent.rerender, ChatEvent.answerStream "answer.",
   ChatEvent.answerComplete sampleAnswerData]

/-- C1: evaluation of handleAnswerComplete at the failing input. With
chunks "The " then "answer." and query:answer_complete delivered
immediately after the last chunk (no re-render in between), the delivered
assistant message content is the closure-captured value "The ", which is
not the concatenation "The answer." of all chunks: completion reads a
stale snapshot, not the live accumulator, dropping the final chunk. -/
theorem c1_completion_drops_last_chunk :
    ((chatRun chatInit staleClosureEvents).state.messages.map
        ChatMessage.content = ["The "])
    ∧ "The " ≠ "The " ++ "answer." := by
  constructor
  · rfl
  · decide

/-- Runtime in which one question has run to completion (its record was
delivered and the accumulators cleared): a terminal state in the sense of
the specification. -/
def completedRun : ChatRuntime :=
  chatRun chatInit
    [ChatEvent.queryStarted, ChatEvent.answerStream "a",
     ChatEvent.rerender, ChatEvent.answerComplete sampleAnswerData]

/-- C2 counterexample: a query:answer_stream event delivered after the
question completed is not ignored — it mutates the accumulation state
(streamedAnswer goes from empty to "x" and isStreamingAnswer flips to
true), refuting the claim that post-terminal events produce no observable
state change. -/
theorem c2_late_chunk_mutates_counterexample :
    (chatStep completedRun (ChatEvent.answerStream "x")).state.streamedAnswer
        = "x"
    ∧ completedRun.state.streamedAnswer = ""
    ∧ (chatStep completedRun (ChatEvent.answerStream "x")).state
        ≠ completedRun.state := by
  refine ⟨rfl, rfl, ?_⟩
  decide

/-- C2 amended: the chat handlers carry no questionId or phase guard, so
an event arriving after a question's completion is processed exactly like
any other: a late query:answer_stream appends its chunk to the
(cleared-at-completion) accumulator and sets isStreamingAnswer, a late
query:nodes replaces the node list, and a late query:thinking_stream
appends to streamedThinking — late and duplicate events are not ignored. -/
theorem c2_late_events_processed_unguarded (r : ChatRuntime) (c : String)
    (nl : List String) :
    (chatStep r (ChatEvent.answerStream c)).state.streamedAnswer
        = r.state.streamedAnswer ++ c
    ∧ (chatStep r (ChatEvent.answerStream c)).state.isStreamingAnswer = true
    ∧ (chatStep r (ChatEvent.nodes nl)).state.streamedNodes = nl
    ∧ (chatStep r (ChatEvent.thinkingStream c)).state.streamedThinking
        = r.state.streamedThinking ++ c :=
  ⟨rfl, rfl, rfl, rfl⟩

/-- C3: the transport is configured with reconnectionAttempts equal to the
default attempt cap 5 (so the underlying socket.io client makes no further
automatic attempts once 5 consecutive attempts have failed), and over a
run of exactly 5 consecutive connect_error deliveries starting from a
fresh attempt counter the manager publishes the terminal
connection-status error event exactly once (on the fifth failure), and
never during any shorter run. A successful connect is the only transition
that resets the counter, so resuming requires a fresh manual connect(). -/
theorem c3_reconnect_cap_error_once :
    connectIoOptions.reconnectionAttempts = 5
    ∧ (runFailures 5 freshAttemptState).2
        = [{ status := ConnStatus.error,
             message := "Failed to connect to server after multiple attempts" }]
    ∧ ((List.range 5).all
        fun k => (runFailures k freshAttemptState).2.isEmpty) = true := by
  refine ⟨rfl, ?_, ?_⟩ <;> decide

theorem emitHandlers_ids (hs : List Handler) (p : Payload) :
    (emitHandlers hs p).map Prod.fst = hs.map Handler.id := by
  induction hs with
  | nil => rfl
  | cons h rest ih =>
    simp only [emitHandlers, List.map_cons, ih]
    cases h.run p <;> rfl

/-- C6: if a registered handler throws during emit, the exception is
caught and recorded (logged), the remaining handlers are still invoked
with the same payload in order, and the invocation log covers every
registered handler — delivery is never aborted by a throwing sibling. -/
theorem c6_throwing_handler_isolated (pre post : List Handler) (h : Handler)
    (p : Payload) (e : String) (hthrow : h.run p = Except.error e) :
    emitHandlers (pre ++ h :: post) p
      = emitHandlers pre p
          ++ (h.id, InvokeOutcome.caught e) :: emitHandlers post p
    ∧ (emitHandlers (pre ++ h :: post) p).map Prod.fst
        = (pre ++ h :: post).map Handler.id := by
  refine ⟨?_, emitHandlers_ids _ _⟩
  induction pre with
  | nil => simp [emitHandlers, hthrow]
  | cons q qs ih =>
      simp only [List.cons_append, emitHandlers, List.append_eq, ih]

/-- Handler that always throws, for the C6 witness. -/
def throwingHandler : Handler :=
  { id := 1, run := fun _ => Except.error "boom" }

/-- Handler that always returns normally, for the C6 witness. -/
def okHandler : Handler :=
  { id := 2, run := fun _ => Except.ok () }

/-- C6 witness: with the throwing handler registered first, emit still
invokes the sibling handler and records both invocations. -/
theorem c6_throwing_handler_isolated_witness :
    emitHandlers ([] ++ throwingHandler :: [okHandler]) "data"
      = emitHandlers [] "data"
          ++ (throwingHandler.id, InvokeOutcome.caught "boom")
            :: emitHandlers [okHandler] "data"
    ∧ (emitHandlers ([] ++ throwingHandler :: [okHandler]) "data").map Prod.fst
        = ([] ++ throwingHandler :: [okHandler]).map Handler.id :=
  c6_throwing_handler_isolated [] [okHandler] throwingHandler "data" "boom" rfl

/-- C9: a sendQuery call while the transport is not connected (no socket
object, or socket present but disconnected) sends no frame on the channel
and instead publishes a single local query:error event with the fixed
message and the conversation_id of the request; the call returns normally
(sendQuery is total). -/
theorem c9_sendquery_not_connected (socket : Option Bool)
    (req : QueryRequest) (hconn : socketConnected socket = false) :
    sendQuery socket req
      = ([], [{ message := "Not connected to server. Please try again.",
                conversation_id := req.conversation_id }]) := by
  simp [sendQuery, hconn]

/-- C9 witness: concrete disconnected sendQuery call. -/
theorem c9_sendquery_not_connected_witness :
    sendQuery none
        { question := "q", document_id := 1, conversation_id := 7,
          use_cache := true, include_citations := true }
      = ([], [{ message := "Not connected to server. Please try again.",
                conversation_id := 7 }]) :=
  c9_sendquery_not_connected none
    { question := "q", document_id := 1, conversation_id := 7,
      use_cache := true, include_citations := true } rfl

/-- C10: every invocation of the chat query:error handler appends the
system message with content "Error: " ++ message, clears the loading flag
and the current question id, and then raises a ReferenceError at the call
to the unbound identifier setThinkingProcess — so no toast is ever shown
(the statement after the unbound call is unreachable), for every starting
state and every error message. -/
theorem c10_query_error_reference_error (s : ChatState) (msg : String) :
    runStmts boundSetters (handleQueryErrorStmts msg) s []
      = { state :=
            { s with
              messages := s.messages ++ [mkQueryErrorMessage msg],
              isLoading := false,
              currentQuestionId := none },
          toasts := [],
          refError := some "setThinkingProcess" } := by
  rfl

/-- Document tracked with a stored progress, page count, and non-terminal
status, for the C4 counterexample. -/
def trackedDoc : PanelDoc :=
  { id := 1, name := "a.pdf", status := "processing",
    pageCount := some 10, treeGenerated := false, progress := some 50 }

/-- A document:update event for the same job carrying neither num_pages
nor progress. -/
def bareUpdateEvent : DocUpdateEvent :=
  { doc_id := 1, status := "processing", message := none,
    num_pages := none, progress := none }

/-- C4 counterexample: an event without a progress field does not leave
the stored progress unchanged — it clears it (progress goes from some 50
to none), while pageCount is indeed retained. The merge claim fails for
the progress field. -/
theorem c4_progress_clobbered_counterexample :
    (onDocumentUpdate bareUpdateEvent [trackedDoc]).map PanelDoc.progress
        = [none]
    ∧ [trackedDoc].map PanelDoc.progress = [some 50]
    ∧ (onDocumentUpdate bareUpdateEvent [trackedDoc]).map PanelDoc.pageCount
        = [some 10] := by
  refine ⟨?_, rfl, ?_⟩ <;> decide

/-- C4 amended: per-field semantics of the job-progress update. An event
without num_pages (or with num_pages 0, which is falsy) retains the prior
pageCount; documents with a different id are untouched; but progress and
status are replaced wholesale by the event's fields on the matching
document — in particular an event without a progress field clears the
stored progress rather than retaining it. -/
theorem c4_update_replaces_progress_amended (ev : DocUpdateEvent)
    (doc : PanelDoc) (hnp : ev.num_pages = none) :
    (applyDocUpdate ev doc).pageCount = doc.pageCount
    ∧ (doc.id = ev.doc_id →
        (applyDocUpdate ev doc).progress = ev.progress
        ∧ (applyDocUpdate ev doc).status = ev.status)
    ∧ (doc.id ≠ ev.doc_id → applyDocUpdate ev doc = doc) := by
  by_cases hid : doc.id = ev.doc_id <;>
    simp [applyDocUpdate, jsOrNum, hnp, hid]

/-- C4 witness: concrete instantiation of the amended per-field semantics
at the tracked document and the field-free event. -/
theorem c4_update_replaces_progress_amended_witness :
    (applyDocUpdate bareUpdateEvent trackedDoc).pageCount
        = trackedDoc.pageCount
    ∧ (trackedDoc.id = bareUpdateEvent.doc_id →
        (applyDocUpdate bareUpdateEvent trackedDoc).progress
            = bareUpdateEvent.progress
        ∧ (applyDocUpdate bareUpdateEvent trackedDoc).status
            = bareUpdateEvent.status)
    ∧ (trackedDoc.id ≠ bareUpdateEvent.doc_id →
        applyDocUpdate bareUpdateEvent trackedDoc = trackedDoc) :=
  c4_update_replaces_progress_amended bareUpdateEvent trackedDoc rfl

/-- Document whose job already reached the terminal status error, for the
C5 counterexample. -/
def erroredDoc : PanelDoc :=
  { id := 2, name := "b.pdf", status := "error",
    pageCount := none, treeGenerated := false, progress := none }

/-- A late document:update event for the same job carrying the
non-terminal status processing. -/
def lateProcessingEvent : DocUpdateEvent :=
  { doc_id := 2, status := "processing", message := none,
    num_pages := none, progress := none }

/-- C5 counterexample: a late event with status processing arriving after
the stored status reached the terminal value error is not ignored — the
stored status regresses from error back to processing. -/
theorem c5_status_regression_counterexample :
    (onDocumentUpdate lateProcessingEvent [erroredDoc]).map PanelDoc.status
        = ["processing"]
    ∧ [erroredDoc].map PanelDoc.status = ["error"] := by
  refine ⟨?_, rfl⟩
  decide

/-- C5 amended: the stored status is last-write-wins, not monotonic: on
every document:update event the matching document's status is replaced
unconditionally by the event's status, so a late non-terminal status
overwrites a stored terminal status. (Tree events, by contrast, only ever
set status to indexed on completion and otherwise keep the prior value.) -/
theorem c5_status_last_write_wins (ev : DocUpdateEvent) (doc : PanelDoc) :
    (applyDocUpdate ev doc).status
      = if doc.id = ev.doc_id then ev.status else doc.status := by
  by_cases hid : doc.id = ev.doc_id <;> simp [applyDocUpdate, hid]
